import Mathlib

/-!
Verification of the GitHub Copilot LLM plugin (`llm_github_copilot.py`).

The development shallowly embeds the plugin's core logic:
* a JSON value type and a parser modelling `json.loads` on the inputs the
  plugin handles;
* `GitHubCopilotAuthenticator.get_api_key` / `_refresh_api_key` with the
  api-key file and the HTTP layer passed explicitly as oracles;
* `GitHubCopilotAuthenticator._poll_for_access_token` as a fuel-bounded loop;
* `GitHubCopilot.execute` including message construction, the option
  defaulting, the diagnostic call, and the SSE streaming loop.
-/

/-- JSON values, as produced by Python's `json.loads`. Numbers are modelled as
integers (the plugin only ever compares timestamps). -/
inductive Json where
  | null : Json
  | bool (b : Bool) : Json
  | num (n : Int) : Json
  | str (s : String) : Json
  | arr (elems : List Json) : Json
  | obj (fields : List (String × Json)) : Json
deriving Repr

mutual

/-- Structural equality of JSON values, modelling Python `==` on decoded
JSON data. -/
def Json.beq : Json → Json → Bool
  | .null, .null => true
  | .bool a, .bool b => a == b
  | .num a, .num b => a == b
  | .str a, .str b => a == b
  | .arr a, .arr b => Json.beqList a b
  | .obj a, .obj b => Json.beqFields a b
  | _, _ => false

/-- Elementwise equality of JSON arrays. -/
def Json.beqList : List Json → List Json → Bool
  | [], [] => true
  | a :: as, b :: bs => Json.beq a b && Json.beqList as bs
  | _, _ => false

/-- Fieldwise equality of JSON objects. -/
def Json.beqFields : List (String × Json) → List (String × Json) → Bool
  | [], [] => true
  | (ka, va) :: as, (kb, vb) :: bs => ka == kb && Json.beq va vb && Json.beqFields as bs
  | _, _ => false

end

instance : BEq Json := ⟨Json.beq⟩

/-- Python truthiness of a decoded JSON value (`if content:` etc.). -/
def Json.truthy : Json → Bool
  | .null => false
  | .bool b => b
  | .num n => n != 0
  | .str s => s != ""
  | .arr es => !es.isEmpty
  | .obj fs => !fs.isEmpty

/-- Dictionary lookup, modelling Python `dict.get(k)` (`none` = Python `None`). -/
def jsonLookup (fields : List (String × Json)) (k : String) : Option Json :=
  match fields with
  | [] => none
  | (k₀, v) :: rest => if k₀ == k then some v else jsonLookup rest k

/-- `as` is a prefix of `bs` (over characters). -/
def isPrefixOfCL : List Char → List Char → Bool
  | [], _ => true
  | _ :: _, [] => false
  | a :: as, b :: bs => a == b && isPrefixOfCL as bs

/-- `n` occurs as a contiguous substring of `h` (over characters). -/
def isInfixOfCL : List Char → List Char → Bool
  | n, [] => isPrefixOfCL n []
  | n, c :: t => isPrefixOfCL n (c :: t) || isInfixOfCL n t

/-- Python `k in j` on a decoded JSON value: key test on dicts, membership on
lists, substring test on strings, `TypeError` otherwise. -/
def jsonContains (k : String) : Json → Except String Bool
  | .obj fs => .ok (fs.any (fun p => p.1 == k))
  | .arr es => .ok (es.any (fun e => e == Json.str k))
  | .str s => .ok (isInfixOfCL k.data s.data)
  | _ => .error "TypeError: argument is not iterable"

/-- Skip JSON whitespace. -/
def skipWs : List Char → List Char
  | c :: cs => if c == ' ' || c == '\n' || c == '\t' || c == '\r' then skipWs cs else c :: cs
  | [] => []

/-- Numeric value of a decimal digit, if `c` is one. -/
def digitVal (c : Char) : Option Nat :=
  if '0' ≤ c && c ≤ '9' then some (c.toNat - '0'.toNat) else none

/-- Accumulate a run of decimal digits. -/
def parseNatAux (acc : Nat) : List Char → Nat × List Char
  | c :: cs =>
    match digitVal c with
    | some d => parseNatAux (acc * 10 + d) cs
    | none => (acc, c :: cs)
  | [] => (acc, [])

/-- Parse the body of a JSON string literal (after the opening quote), handling
the simple escapes; returns the content and the input after the closing quote. -/
def parseStringAux : List Char → Option (List Char × List Char)
  | [] => none
  | c :: cs =>
    if c == '"' then some ([], cs)
    else if c == '\\' then
      match cs with
      | [] => none
      | e :: cs₂ =>
        let dec : Option Char :=
          if e == '"' then some '"'
          else if e == '\\' then some '\\'
          else if e == '/' then some '/'
          else if e == 'n' then some '\n'
          else if e == 't' then some '\t'
          else if e == 'r' then some '\r'
          else none
        match dec with
        | some d => (parseStringAux cs₂).map (fun p => (d :: p.1, p.2))
        | none => none
    else (parseStringAux cs).map (fun p => (c :: p.1, p.2))

mutual

/-- Fuel-bounded parser for a JSON value; models `json.loads` on the payloads
the plugin processes (objects, arrays, strings, integers, literals). -/
def parseVal : Nat → List Char → Option (Json × List Char)
  | 0, _ => none
  | fuel + 1, cs =>
    match skipWs cs with
    | [] => none
    | c :: rest =>
      if c == '"' then
        (parseStringAux rest).map (fun p => (Json.str (String.mk p.1), p.2))
      else if c == '\x7b' then
        match skipWs rest with
        | '\x7d' :: rest₂ => some (Json.obj [], rest₂)
        | other => (parseFields fuel other).map (fun p => (Json.obj p.1, p.2))
      else if c == '[' then
        match skipWs rest with
        | ']' :: rest₂ => some (Json.arr [], rest₂)
        | other => (parseElems fuel other).map (fun p => (Json.arr p.1, p.2))
      else if c == 't' then
        if isPrefixOfCL ['r', 'u', 'e'] rest then some (Json.bool true, rest.drop 3) else none
      else if c == 'f' then
        if isPrefixOfCL ['a', 'l', 's', 'e'] rest then some (Json.bool false, rest.drop 4) else none
      else if c == 'n' then
        if isPrefixOfCL ['u', 'l', 'l'] rest then some (Json.null, rest.drop 3) else none
      else if c == '-' then
        match rest with
        | d :: _ =>
          match digitVal d with
          | some _ =>
            let p := parseNatAux 0 rest
            some (Json.num (-(p.1 : Int)), p.2)
          | none => none
        | [] => none
      else
        match digitVal c with
        | some _ =>
          let p := parseNatAux 0 (c :: rest)
          some (Json.num (p.1 : Int), p.2)
        | none => none

/-- Parse one or more comma-separated array elements up to the closing bracket. -/
def parseElems : Nat → List Char → Option (List Json × List Char)
  | 0, _ => none
  | fuel + 1, cs =>
    match parseVal fuel cs with
    | none => none
    | some (v, rest) =>
      match skipWs rest with
      | ',' :: rest₂ => (parseElems fuel rest₂).map (fun p => (v :: p.1, p.2))
      | ']' :: rest₂ => some ([v], rest₂)
      | _ => none

/-- Parse one or more comma-separated object fields up to the closing brace. -/
def parseFields : Nat → List Char → Option (List (String × Json) × List Char)
  | 0, _ => none
  | fuel + 1, cs =>
    match skipWs cs with
    | '"' :: rest =>
      match parseStringAux rest with
      | none => none
      | some (kcs, rest₂) =>
        match skipWs rest₂ with
        | ':' :: rest₃ =>
          match parseVal fuel rest₃ with
          | none => none
          | some (v, rest₄) =>
            match skipWs rest₄ with
            | ',' :: rest₅ =>
              (parseFields fuel rest₅).map (fun p => ((String.mk kcs, v) :: p.1, p.2))
            | '\x7d' :: rest₅ => some ([(String.mk kcs, v)], rest₅)
            | _ => none
        | _ => none
    | _ => none

end

/-- `json.loads`: parse a complete JSON document, rejecting trailing garbage. -/
def Json.parse (s : String) : Option Json :=
  match parseVal (s.data.length + 1) s.data with
  | some (j, rest) => if (skipWs rest).isEmpty then some j else none
  | none => none


/-- State of the persisted `api-key.json` file: absent (or unreadable — both
raise `IOError`), present but not valid JSON (raises `JSONDecodeError`), or a
stored decoded JSON value. -/
inductive FileState where
  | absent : FileState
  | invalid : FileState
  | stored (j : Json) : FileState
deriving Repr

/-- Outcome of one HTTP request as seen by the caller: either the call (or
`raise_for_status`/`json()`) raised, or it produced a decoded JSON body. -/
inductive HttpResp where
  | raise (msg : String) : HttpResp
  | ok (j : Json) : HttpResp

/-- Oracle for `_refresh_api_key`: the outcome of `get_access_token()` (which
may raise) and the outcome of each GET to the key-exchange endpoint. -/
structure RefreshWorld where
  accessToken : Except String String
  gets : Nat → HttpResp

/-- The retry loop of `_refresh_api_key`: up to `fuel` GET attempts starting at
attempt `i`; any exception in an attempt is caught and the loop continues; a
response whose JSON contains `token` is returned. -/
def refreshLoop (gets : Nat → HttpResp) : Nat → Nat → Except String Json
  | 0, _ => .error "Failed to refresh API key after maximum retries"
  | fuel + 1, i =>
    match gets i with
    | .raise _ => refreshLoop gets fuel (i + 1)
    | .ok j =>
      match jsonContains "token" j with
      | .error _ => refreshLoop gets fuel (i + 1)
      | .ok true => .ok j
      | .ok false => refreshLoop gets fuel (i + 1)

/-- `GitHubCopilotAuthenticator._refresh_api_key`: obtain the access token
(a raised exception propagates), then try the key exchange up to 3 times. -/
def refresh_api_key (w : RefreshWorld) : Except String Json :=
  match w.accessToken with
  | .error m => .error m
  | .ok _ => refreshLoop w.gets 3 0

/-- Result of `get_api_key`: the returned value (`.ok v`, where `v = none`
models Python `None`) or a raised exception (`.error`), together with whether
the refresh path ran and the resulting api-key file state. -/
structure KeyResult where
  outcome : Except String (Option Json)
  refreshCalled : Bool
  newFile : FileState

/-- Python `expires_at > now` on a decoded JSON value: defined for numbers and
booleans, `TypeError` otherwise. -/
def expiresCmp (e : Json) (now : Int) : Except String Bool :=
  match e with
  | .num n => .ok (decide (n > now))
  | .bool b => .ok (decide ((if b then (1 : Int) else 0) > now))
  | _ => .error "TypeError: unorderable types"

/-- The second half of `get_api_key`: call `_refresh_api_key`, dump the result
to the api-key file, and return its `token` field; any exception is re-raised
wrapped as `Failed to get API key`. -/
def refreshPath (file : FileState) (rw : RefreshWorld) : KeyResult :=
  match refresh_api_key rw with
  | .error m => ⟨.error ("Failed to get API key: " ++ m), true, file⟩
  | .ok j =>
    match j with
    | .obj fs => ⟨.ok (jsonLookup fs "token"), true, .stored j⟩
    | _ => ⟨.error ("Failed to get API key: AttributeError: object has no attribute get"), true, .stored j⟩

/-- `GitHubCopilotAuthenticator.get_api_key`: read the cached record; if its
`expires_at` (default 0) is beyond `now`, return its `token` field; on
`IOError`/`JSONDecodeError`/`KeyError` fall through to the refresh path; note
that a decoded value that is not an object raises `AttributeError` (uncaught),
and a non-numeric `expires_at` raises `TypeError` (uncaught). -/
def get_api_key (file : FileState) (now : Int) (rw : RefreshWorld) : KeyResult :=
  match file with
  | .absent => refreshPath file rw
  | .invalid => refreshPath file rw
  | .stored j =>
    match j with
    | .obj fs =>
      match expiresCmp ((jsonLookup fs "expires_at").getD (.num 0)) now with
      | .error m => ⟨.error m, false, file⟩
      | .ok b =>
        if b then ⟨.ok (jsonLookup fs "token"), false, file⟩
        else refreshPath file rw
    | _ => ⟨.error "AttributeError: object has no attribute get", false, file⟩

/-- An API-key record as the spec's data model describes it. -/
structure ApiKey where
  token : String
  expires_at : Int

/-- Modelled from the spec: `save_api_key(key)` (TokenStore) — the repository
has no named function for this; it corresponds to the inline whole-record
`json.dump` rewrite performed in `get_api_key`. -/
def save_api_key (k : ApiKey) : FileState :=
  .stored (.obj [("token", .str k.token), ("expires_at", .num k.expires_at)])

/-- Oracle for `_poll_for_access_token`: the outcome of each POST attempt. -/
inductive PollResp where
  | raise (msg : String) : PollResp
  | ok (j : Json) : PollResp

/-- Observable result of the polling loop: number of POSTs issued, the sleeps
performed (in seconds, in order), and the returned token or raised exception. -/
structure PollOut where
  posts : Nat
  sleeps : List Nat
  result : Except String Json
deriving Repr

/-- The loop body of `_poll_for_access_token`: each attempt POSTs; an exception
in the attempt is re-raised wrapped; a body with `access_token` is returned;
otherwise (`authorization_pending` or any other body) the loop sleeps 5 seconds
and continues; exhausting the attempts raises the timeout. -/
def pollLoop (resps : Nat → PollResp) : Nat → Nat → PollOut
  | 0, _ => ⟨0, [], .error "Timed out waiting for user to authorize the device"⟩
  | fuel + 1, i =>
    match resps i with
    | .raise m => ⟨1, [], .error ("Failed to get access token: " ++ m)⟩
    | .ok j =>
      match jsonContains "access_token" j with
      | .error m => ⟨1, [], .error ("Failed to get access token: " ++ m)⟩
      | .ok true =>
        match j with
        | .obj fs => ⟨1, [], .ok ((jsonLookup fs "access_token").getD .null)⟩
        | _ => ⟨1, [], .error "Failed to get access token: TypeError: indices must be integers"⟩
      | .ok false =>
        match jsonContains "error" j with
        | .error m => ⟨1, [], .error ("Failed to get access token: " ++ m)⟩
        | .ok true =>
          match j with
          | .obj _ =>
            let r := pollLoop resps fuel (i + 1)
            ⟨r.posts + 1, 5 :: r.sleeps, r.result⟩
          | _ => ⟨1, [], .error "Failed to get access token: AttributeError: object has no attribute get"⟩
        | .ok false =>
          let r := pollLoop resps fuel (i + 1)
          ⟨r.posts + 1, 5 :: r.sleeps, r.result⟩

/-- `GitHubCopilotAuthenticator._poll_for_access_token`: `max_attempts = 12`. -/
def poll_for_access_token (resps : Nat → PollResp) : PollOut :=
  pollLoop resps 12 0

/-- The polling response body that reports a pending authorization. -/
def pendingBody : Json := Json.obj [("error", Json.str "authorization_pending")]

/-- A fragment yielded by the `execute` generator: a Python string, or (for the
delta-content yield) the decoded JSON value itself. -/
inductive Frag where
  | text (s : String) : Frag
  | val (j : Json) : Frag
deriving Repr

/-- The error text produced by `execute`'s general exception handler. -/
def genericError (m : String) : String := "Error with GitHub Copilot request: " ++ m

/-- What the `HTTPStatusError` handler can observe on the exception's response. -/
inductive RespInfo where
  | noResp : RespInfo
  | textRaises (inner : String) : RespInfo
  | okResp (text : String) (code : Int) : RespInfo

/-- The error text built by `execute`'s `httpx.HTTPStatusError` handler. -/
def httpStatusMessage (estr : String) (r : RespInfo) : String :=
  match r with
  | .noResp => "HTTP error: " ++ estr ++ "\nStatus code: unknown\nDetails: No response text available"
  | .textRaises inner => "HTTP error: " ++ estr ++ "\nCould not get details: " ++ inner
  | .okResp t c => "HTTP error: " ++ estr ++ "\nStatus code: " ++ toString c ++ "\nDetails: " ++ t

/-- How the streaming response ends after its lines are consumed: normal end
of `iter_lines`, an `httpx.HTTPStatusError`, or any other exception. -/
inductive StreamExit where
  | done : StreamExit
  | httpStatus (estr : String) (resp : RespInfo) : StreamExit
  | exn (msg : String) : StreamExit

/-- Fragments produced by `execute`'s exception handlers when the stream ends
abnormally. -/
def exitFrags : StreamExit → List Frag
  | .done => []
  | .httpStatus estr r => [.text (httpStatusMessage estr r)]
  | .exn m => [.text (genericError m)]

/-- The delta-content extraction performed on one parsed SSE payload:
`content = json_data["choices"][0].get("delta", {}).get("content")` guarded by
`if "choices" in json_data and json_data["choices"]:`. `.error` models an
exception reaching the generic handler (`TypeError`/`KeyError`/
`AttributeError` on ill-shaped payloads). -/
def extractContent (j : Json) : Except String (Option Json) :=
  match jsonContains "choices" j with
  | .error m => .error m
  | .ok false => .ok none
  | .ok true =>
    match j with
    | .obj fs =>
      match jsonLookup fs "choices" with
      | none => .ok none
      | some v =>
        if v.truthy then
          match v with
          | .arr (x :: _) =>
            match x with
            | .obj xfs =>
              match (jsonLookup xfs "delta").getD (.obj []) with
              | .obj dfs => .ok (jsonLookup dfs "content")
              | _ => .error "AttributeError: object has no attribute get"
            | _ => .error "AttributeError: object has no attribute get"
          | .str _ => .error "AttributeError: object has no attribute get"
          | .obj _ => .error "KeyError: 0"
          | _ => .error "TypeError: object is not subscriptable"
        else .ok none
    | _ => .error "TypeError: indices must be integers"

/-- The characters of the SSE prefix `data: `. -/
def dataPrefixChars : List Char := ['d', 'a', 't', 'a', ':', ' ']

/-- Classification of one line of the streaming response. -/
inductive LineView where
  | empty : LineView
  | done : LineView
  | payload (d : String) : LineView
  | raw : LineView

/-- The per-line dispatch of the streaming loop: skip falsy (empty) lines,
strip the `data: ` prefix, recognise `[DONE]`, otherwise the line is raw. -/
def lineView (l : String) : LineView :=
  match l.data with
  | [] => .empty
  | _ :: _ =>
    if isPrefixOfCL dataPrefixChars l.data then
      let d := String.mk (l.data.drop 6)
      if d = "[DONE]" then .done else .payload d
    else .raw

/-- The streaming loop of `execute`: process each line of the response, then
(if no `break` or exception ended the loop) the stream-exit handlers. -/
def processLines : List String → StreamExit → List Frag
  | [], ex => exitFrags ex
  | l :: rest, ex =>
    match lineView l with
    | .empty => processLines rest ex
    | .done => []
    | .payload d =>
      match Json.parse d with
      | none => .text d :: processLines rest ex
      | some j =>
        match extractContent j with
        | .error m => [.text (genericError m)]
        | .ok none => processLines rest ex
        | .ok (some c) =>
          if c.truthy then .val c :: processLines rest ex else processLines rest ex
    | .raw => .text l :: processLines rest ex

/-- Outcome of the diagnostic (non-streaming) call: the POST raised, the
`.text` accessor raised, or a body string was obtained (possibly empty). -/
inductive DiagResult where
  | postError (m : String) : DiagResult
  | textError (m : String) : DiagResult
  | body (s : String) : DiagResult

/-- The body the diagnostic call returned, if it returned one. -/
def DiagResult.returnedBody : DiagResult → Option String
  | .body s => some s
  | _ => none

/-- Oracle for one run of `execute`: the value `get_api_key` produced (or the
exception it raised), the diagnostic call's outcome, and the streaming
response's lines and exit. -/
structure World where
  apiKey : Except String (Option Json)
  diag : DiagResult
  streamLines : List String
  streamExit : StreamExit

/-- Observable outcome of `execute`: the yielded fragments and which HTTP
calls were issued. -/
structure ExecOut where
  frags : List Frag
  diagCalled : Bool
  streamCalled : Bool
deriving Repr

/-- The part of `execute` after a usable key was obtained: the diagnostic
call, whose non-empty body is yielded as the single fragment; an empty body, a
failed POST, or a failed `.text` access all fall through to the streaming
loop. -/
def executeAfterKey (w : World) : Except String ExecOut :=
  match w.diag with
  | .body s =>
    if s = "" then .ok ⟨processLines w.streamLines w.streamExit, true, true⟩
    else .ok ⟨[.text s], true, false⟩
  | _ => .ok ⟨processLines w.streamLines w.streamExit, true, true⟩

/-- `GitHubCopilot.execute`. A credential exception is caught and yielded as
one error fragment. The returned key is then sliced by the debug print
(`api_key[:4]`): slicing is defined for Python strings and lists, and raises
`TypeError` for `None`/numbers/booleans/dicts — that raise escapes the
generator (`.error`). Otherwise the diagnostic call and, when needed, the
streaming call follow. -/
def execute (w : World) : Except String ExecOut :=
  match w.apiKey with
  | .error e => .ok ⟨[.text ("Error getting GitHub Copilot API key: " ++ e)], false, false⟩
  | .ok v =>
    match v with
    | some (.str _) => executeAfterKey w
    | some (.arr _) => executeAfterKey w
    | _ => .error "TypeError: object is not subscriptable"

/-- `execute` as called in context: its `get_api_key` call composed with the
authenticator model. -/
def executeWithAuth (file : FileState) (now : Int) (rw : RefreshWorld)
    (diag : DiagResult) (lines : List String) (ex : StreamExit) : Except String ExecOut :=
  execute ⟨(get_api_key file now rw).outcome, diag, lines, ex⟩

/-- A chat message of the completion request. -/
structure Msg where
  role : String
  content : String
deriving Repr, DecidableEq

/-- The system preamble `execute` injects. -/
def systemMsg : Msg := ⟨"system", "You are GitHub Copilot, an AI programming assistant."⟩

/-- The (user, assistant) pairs replayed from the prior conversation: for each
prior response, a user message with its prompt and an assistant message with
its text. -/
def pairMsgs (prior : List (String × String)) : List Msg :=
  (prior.map (fun p => [⟨"user", p.1⟩, ⟨"assistant", p.2⟩])).flatten

/-- The message-list construction of `execute`: replay the prior pairs; if any
were replayed, insert the system preamble when no system message is present
and append the new user turn; otherwise start from scratch with the preamble
and the new user turn. -/
def buildMessages (prior : List (String × String)) (newPrompt : String) : List Msg :=
  let msgs := pairMsgs prior
  if msgs.isEmpty then [systemMsg, ⟨"user", newPrompt⟩]
  else
    (if msgs.any (fun m => m.role == "system") then msgs else systemMsg :: msgs) ++
      [⟨"user", newPrompt⟩]

/-- The `Options.validate_temperature` field validator. Temperatures are
modelled as rationals (the plugin only compares against 0 and 1 and tests
truthiness, which are exact). -/
def validate_temperature (t : Option ℚ) : Except String (Option ℚ) :=
  match t with
  | none => .ok none
  | some v => if 0 ≤ v ∧ v ≤ 1 then .ok (some v) else .error "temperature must be between 0 and 1"

/-- The payload's temperature field: `prompt.options.temperature or 0.7` —
Python `or` yields the default when the option is `None` or falsy (`0.0`). -/
def payloadTemperature (t : Option ℚ) : ℚ :=
  match t with
  | none => 0.7
  | some v => if v = 0 then 0.7 else v

/-- An SSE event line: the `data: ` prefix followed by the payload. -/
def dataLine (d : String) : String := "data: " ++ d

/-- A refresh world whose server grants a key that is already expired at the
current time `1000`. -/
def expiredGrantWorld : RefreshWorld :=
  ⟨.ok "access", fun _ => .ok (.obj [("token", .str "t"), ("expires_at", .num 500)])⟩

/-- A refresh world in which every key-exchange attempt fails with a transport
error. -/
def failingRefreshWorld : RefreshWorld :=
  ⟨.ok "access", fun _ => .raise "connection refused"⟩

/-- A key-exchange grant whose `token` field is JSON `null` (so `get_api_key`
returns Python `None`). -/
def nullTokenGrantWorld : RefreshWorld :=
  ⟨.ok "access", fun _ => .ok (.obj [("token", .null), ("expires_at", .num 9999999999)])⟩

/-- The all-pending polling oracle. -/
def allPending : Nat → PollResp := fun _ => .ok pendingBody

/-- The P4 event payload carrying delta content `Hi`. -/
def hiPayload : String := "\x7b\"choices\":[\x7b\"delta\":\x7b\"content\":\"Hi\"\x7d\x7d]\x7d"

/-- The P4 event payload carrying delta content ` there`. -/
def therePayload : String := "\x7b\"choices\":[\x7b\"delta\":\x7b\"content\":\" there\"\x7d\x7d]\x7d"

/-- An event payload whose first choice's delta `content` field is present but
is the empty string. -/
def emptyContentPayload : String := "\x7b\"choices\":[\x7b\"delta\":\x7b\"content\":\"\"\x7d\x7d]\x7d"

/-- The characters of a string built by `String.mk`. -/
theorem string_data_mk (cs : List Char) : (String.mk cs).data = cs := rfl

/-- A string equals the `String.mk` of its characters. -/
theorem string_mk_data (s : String) : String.mk s.data = s := by
  cases s with
  | mk cs => rfl

/-- Sanity check of the `json.loads` model: a small object document. -/
theorem json_parse_small_obj :
    Json.parse "\x7b\"a\": [1, 2]\x7d" =
      some (Json.obj [("a", Json.arr [Json.num 1, Json.num 2])]) := rfl

/-- Sanity check of the `json.loads` model: a non-JSON document is rejected. -/
theorem json_parse_not_json : Json.parse "not-json" = none := rfl

/-- Dispatch of an SSE event line: `[DONE]` ends the stream, any other payload
is processed. -/
theorem lineView_dataLine (d : String) :
    lineView (dataLine d) = if d = "[DONE]" then LineView.done else LineView.payload d := by
  cases d with
  | mk cs => rfl

/-- The refresh path always counts as a refresh attempt. -/
theorem refreshPath_refreshCalled (f : FileState) (rw : RefreshWorld) :
    (refreshPath f rw).refreshCalled = true := by
  unfold refreshPath
  cases refresh_api_key rw with
  | error m => rfl
  | ok j => cases j <;> rfl

/-- Replayed (user, assistant) pairs never contain a system message. -/
theorem pairMsgs_no_system (prior : List (String × String)) :
    (pairMsgs prior).any (fun m => m.role == "system") = false := by
  induction prior with
  | nil => rfl
  | cons a t ih =>
    have h1 : (("user" : String) == "system") = false := rfl
    have h2 : (("assistant" : String) == "system") = false := rfl
    simp [pairMsgs, List.any_cons, h1, h2] at ih ⊢
    exact ih

/-- When every response reports `authorization_pending`, the polling loop runs
through all its attempts, sleeping 5 seconds after each, and times out. -/
theorem pollLoop_pending (resps : Nat → PollResp) :
    ∀ (fuel i : Nat), (∀ k, k < fuel → resps (i + k) = .ok pendingBody) →
    pollLoop resps fuel i =
      ⟨fuel, List.replicate fuel 5, .error "Timed out waiting for user to authorize the device"⟩ := by
  intro fuel
  induction fuel with
  | zero => intro i _; rfl
  | succ n ih =>
    intro i h
    have h0 : resps i = .ok pendingBody := by
      have := h 0 (Nat.succ_pos n)
      simpa using this
    have hrest : ∀ k, k < n → resps (i + 1 + k) = .ok pendingBody := by
      intro k hk
      have := h (k + 1) (Nat.succ_lt_succ hk)
      have harith : i + (k + 1) = i + 1 + k := by omega
      rwa [harith] at this
    have step : pollLoop resps (n + 1) i =
        ⟨(pollLoop resps n (i + 1)).posts + 1, 5 :: (pollLoop resps n (i + 1)).sleeps,
          (pollLoop resps n (i + 1)).result⟩ := by
      rw [pollLoop, h0]
      rfl
    rw [step, ih (i + 1) hrest]
    rfl

/-- C3: if every poll response is a well-formed body with
`error == "authorization_pending"` (and no poll call raises),
`_poll_for_access_token` performs exactly 12 POST attempts, sleeps a fixed 5
seconds after each attempt (in particular between consecutive attempts), and
terminates by raising the device-authorization timeout; the loop is bounded by
its attempt budget and never loops indefinitely. -/
theorem C3_poll_pending_times_out (resps : Nat → PollResp)
    (h : ∀ k, k < 12 → resps k = .ok pendingBody) :
    poll_for_access_token resps =
      ⟨12, List.replicate 12 5, .error "Timed out waiting for user to authorize the device"⟩ := by
  have := pollLoop_pending resps 12 0 (by intro k hk; simpa using h k hk)
  simpa [poll_for_access_token] using this

/-- Witness for C3: the all-pending oracle. -/
theorem C3_poll_pending_times_out_witness :
    poll_for_access_token allPending =
      ⟨12, List.replicate 12 5, .error "Timed out waiting for user to authorize the device"⟩ :=
  C3_poll_pending_times_out allPending (fun _ _ => rfl)

/-- Counterexample to C2: with the current time at `1000`, the refresh path
returns the server-granted token `"t"` even though the record it just
persisted declares `expires_at = 500 < 1000` — `_refresh_api_key` only checks
that a `token` field is present, never the declared expiry, so a key obtained
via the refresh path can violate the invariant at the moment it is returned. -/
theorem C2_counterexample :
    (get_api_key .absent 1000 expiredGrantWorld).outcome = .ok (some (.str "t")) ∧
    (get_api_key .absent 1000 expiredGrantWorld).newFile =
      .stored (.obj [("token", .str "t"), ("expires_at", .num 500)]) ∧
    (500 : Int) < 1000 :=
  ⟨rfl, rfl, by norm_num⟩

/-- C2 (amended): the cached-key path enforces the expiry invariant strictly —
a persisted key with a past-or-equal `expires_at` triggers a refresh and one
with a future `expires_at` is returned from cache — but a key obtained via the
refresh path is returned without any check of its declared expiry (only the
presence of a `token` field is checked), so the invariant holds for refreshed
keys only if the server declares a future expiry. -/
theorem C2_expiry_invariant (t : String) (e now : Int) (rw : RefreshWorld)
    (fs : List (String × Json))
    (hexp : jsonLookup fs "expires_at" = some (.num e))
    (htok : jsonLookup fs "token" = some (.str t)) :
    (e ≤ now → (get_api_key (.stored (.obj fs)) now rw).refreshCalled = true) ∧
    (now < e → get_api_key (.stored (.obj fs)) now rw =
      ⟨.ok (some (.str t)), false, .stored (.obj fs)⟩) := by
  constructor
  · intro hle
    have hd : decide (e > now) = false := by simp [hle, not_lt]
    simp only [get_api_key, hexp, Option.getD, expiresCmp, hd]
    simp only [Bool.false_eq_true, if_false]
    exact refreshPath_refreshCalled _ _
  · intro hlt
    have hd : decide (e > now) = true := by simpa using hlt
    simp only [get_api_key, hexp, Option.getD, expiresCmp, hd, if_true, htok]

/-- Witness for C2 (amended): a concrete record, expired and valid cases. -/
theorem C2_expiry_invariant_witness :
    (get_api_key (.stored (.obj [("token", .str "t"), ("expires_at", .num 5)])) 5
        expiredGrantWorld).refreshCalled = true ∧
    get_api_key (.stored (.obj [("token", .str "t"), ("expires_at", .num 9)])) 5
        expiredGrantWorld =
      ⟨.ok (some (.str "t")), false, .stored (.obj [("token", .str "t"), ("expires_at", .num 9)])⟩ :=
  ⟨(C2_expiry_invariant "t" 5 5 expiredGrantWorld
      [("token", .str "t"), ("expires_at", .num 5)] rfl rfl).1 (by norm_num),
   (C2_expiry_invariant "t" 9 5 expiredGrantWorld
      [("token", .str "t"), ("expires_at", .num 9)] rfl rfl).2 (by norm_num)⟩

/-- C10: the expiry comparison is strict (`expires_at > now`): a cached key
whose `expires_at` equals the current timestamp exactly is treated as
expired — the cached token is not returned and the refresh path runs. -/
theorem C10_equal_expiry_is_expired (fs : List (String × Json)) (now : Int)
    (rw : RefreshWorld) (h : jsonLookup fs "expires_at" = some (.num now)) :
    get_api_key (.stored (.obj fs)) now rw = refreshPath (.stored (.obj fs)) rw ∧
    (get_api_key (.stored (.obj fs)) now rw).refreshCalled = true := by
  have hd : decide (now > now) = false := by simp
  have key : get_api_key (.stored (.obj fs)) now rw = refreshPath (.stored (.obj fs)) rw := by
    simp only [get_api_key, h, Option.getD, expiresCmp, hd, Bool.false_eq_true, if_false]
  exact ⟨key, key ▸ refreshPath_refreshCalled _ _⟩

/-- Witness for C10: a record whose expiry equals the clock. -/
theorem C10_equal_expiry_is_expired_witness :
    (get_api_key (.stored (.obj [("token", .str "t"), ("expires_at", .num 77)])) 77
        expiredGrantWorld).refreshCalled = true :=
  (C10_equal_expiry_is_expired [("token", .str "t"), ("expires_at", .num 77)] 77
      expiredGrantWorld rfl).2

/-- Counterexample to C7: for the record `k = ⟨"t", 0⟩` (already expired at
time `100`), saving `k` and immediately calling `get_api_key` does not return
`k.token` — the cached record is judged expired, the refresh path runs, and
(here, with the network down) the call raises instead. The claim fails for
records whose `expires_at` is not in the future. -/
theorem C7_counterexample :
    (get_api_key (save_api_key ⟨"t", 0⟩) 100 failingRefreshWorld).outcome =
      .error "Failed to get API key: Failed to refresh API key after maximum retries" ∧
    (get_api_key (save_api_key ⟨"t", 0⟩) 100 failingRefreshWorld).outcome ≠
      .ok (some (.str "t")) ∧
    (get_api_key (save_api_key ⟨"t", 0⟩) 100 failingRefreshWorld).refreshCalled = true := by
  refine ⟨rfl, ?_, rfl⟩
  intro h
  rw [show (get_api_key (save_api_key ⟨"t", 0⟩) 100 failingRefreshWorld).outcome =
      Except.error "Failed to get API key: Failed to refresh API key after maximum retries"
    from rfl] at h
  exact Except.noConfusion h

/-- C7 (amended): for every ApiKey record `k` whose declared `expires_at` is
strictly in the future, saving `k` (whole-record rewrite) and then immediately
calling `get_api_key` returns a token equal to `k.token`, from cache. -/
theorem C7_save_then_get (k : ApiKey) (now : Int) (rw : RefreshWorld)
    (h : now < k.expires_at) :
    (get_api_key (save_api_key k) now rw).outcome = .ok (some (.str k.token)) ∧
    (get_api_key (save_api_key k) now rw).refreshCalled = false := by
  have hd : decide (k.expires_at > now) = true := by simpa using h
  have hexp : jsonLookup [("token", Json.str k.token), ("expires_at", Json.num k.expires_at)]
      "expires_at" = some (Json.num k.expires_at) := rfl
  have htok : jsonLookup [("token", Json.str k.token), ("expires_at", Json.num k.expires_at)]
      "token" = some (Json.str k.token) := rfl
  have key : get_api_key (save_api_key k) now rw =
      ⟨.ok (some (.str k.token)), false, save_api_key k⟩ := by
    simp only [save_api_key, get_api_key, hexp, Option.getD, expiresCmp, hd, if_true, htok]
  rw [key]
  exact ⟨rfl, rfl⟩

/-- Witness for C7 (amended): a concrete unexpired record. -/
theorem C7_save_then_get_witness :
    (get_api_key (save_api_key ⟨"tok", 10⟩) 3 failingRefreshWorld).outcome =
      .ok (some (.str "tok")) :=
  (C7_save_then_get ⟨"tok", 10⟩ 3 failingRefreshWorld (by norm_num)).1

/-- Counterexample to C9: a persisted file holding valid JSON that is not an
object — here the array `[1, 2]` — makes `get_api_key` raise an uncaught
`AttributeError` (`.get` on a list) rather than behave as if the file were
absent: the refresh path does not run, while for an absent file it does. -/
theorem C9_counterexample :
    get_api_key (.stored (.arr [.num 1, .num 2])) 0 failingRefreshWorld =
      ⟨.error "AttributeError: object has no attribute get", false,
        .stored (.arr [.num 1, .num 2])⟩ ∧
    (get_api_key .absent 0 failingRefreshWorld).refreshCalled = true :=
  ⟨rfl, rfl⟩

/-- C9 (amended): an unreadable/absent file, a file that is not valid JSON, or
a JSON object lacking the `expires_at` field (whose default `0` is not in the
future) all make `get_api_key` proceed to the refresh path exactly as if the
file were absent, without raising; but a valid JSON value that is not an
object makes `get_api_key` raise (uncaught `AttributeError`) without
refreshing. -/
theorem C9_malformed_cache (now : Int) (rw : RefreshWorld) :
    (get_api_key .absent now rw = refreshPath .absent rw) ∧
    (get_api_key .invalid now rw = refreshPath .invalid rw) ∧
    ((get_api_key .invalid now rw).outcome = (get_api_key .absent now rw).outcome) ∧
    (∀ fs, jsonLookup fs "expires_at" = none → 0 ≤ now →
      get_api_key (.stored (.obj fs)) now rw = refreshPath (.stored (.obj fs)) rw ∧
      (get_api_key (.stored (.obj fs)) now rw).outcome = (get_api_key .absent now rw).outcome) ∧
    (∀ es, get_api_key (.stored (.arr es)) now rw =
      ⟨.error "AttributeError: object has no attribute get", false, .stored (.arr es)⟩) := by
  refine ⟨rfl, rfl, ?_, ?_, fun es => rfl⟩
  · show (refreshPath .invalid rw).outcome = (refreshPath .absent rw).outcome
    unfold refreshPath
    cases refresh_api_key rw with
    | error m => rfl
    | ok j => cases j <;> rfl
  · intro fs hmiss hnow
    have hd : decide ((0 : Int) > now) = false := by simp [not_lt, hnow]
    have key : get_api_key (.stored (.obj fs)) now rw = refreshPath (.stored (.obj fs)) rw := by
      simp only [get_api_key, hmiss, Option.getD, expiresCmp, hd, Bool.false_eq_true, if_false]
    refine ⟨key, ?_⟩
    rw [key]
    show (refreshPath _ rw).outcome = (refreshPath .absent rw).outcome
    unfold refreshPath
    cases refresh_api_key rw with
    | error m => rfl
    | ok j => cases j <;> rfl

/-- Witness for C9 (amended): a concrete object file lacking `expires_at`. -/
theorem C9_malformed_cache_witness :
    get_api_key (.stored (.obj [("token", .str "t")])) 3 failingRefreshWorld =
      refreshPath (.stored (.obj [("token", .str "t")])) failingRefreshWorld :=
  ((C9_malformed_cache 3 failingRefreshWorld).2.2.2.1 [("token", .str "t")] rfl
    (by norm_num)).1

/-- C6: the completion request's message list is the system preamble followed
by the new user turn when the conversation is empty; when non-empty it is the
(user, assistant) pair of every prior response in order, with the system
preamble inserted at the front when no system message is present (the replayed
pairs never contain one, so it always is), followed by the new user turn. -/
theorem C6_message_construction (prior : List (String × String)) (p : String) :
    buildMessages [] p = [systemMsg, ⟨"user", p⟩] ∧
    (prior ≠ [] →
      buildMessages prior p = systemMsg :: (pairMsgs prior ++ [⟨"user", p⟩])) := by
  refine ⟨rfl, ?_⟩
  intro hne
  match prior, hne with
  | (a :: t), _ =>
    have hsys := pairMsgs_no_system (a :: t)
    have hnonempty : (pairMsgs (a :: t)).isEmpty = false := by
      simp [pairMsgs]
    simp only [buildMessages, hnonempty, hsys, Bool.false_eq_true, if_false, List.cons_append]

/-- Witness for C6: a one-turn prior conversation. -/
theorem C6_message_construction_witness :
    buildMessages [("q", "a")] "p" =
      systemMsg :: (pairMsgs [("q", "a")] ++ [⟨"user", "p"⟩]) :=
  (C6_message_construction [("q", "a")] "p").2 (by simp)

/-- C8: the Options validator accepts `temperature = 0.0` (it only requires
`0 <= temperature <= 1`), yet `execute` does not send `0.0`: the payload's
temperature is computed with `prompt.options.temperature or 0.7`, whose
truthiness test silently replaces the falsy `0.0` by the default `0.7` —
exactly as when the option is unset — and `0.7` is not `0.0`. -/
theorem C8_zero_temperature_replaced :
    validate_temperature (some 0) = .ok (some 0) ∧
    payloadTemperature (some 0) = 0.7 ∧
    payloadTemperature (some 0) = payloadTemperature none ∧
    (0.7 : ℚ) ≠ 0 := by
  refine ⟨?_, ?_, ?_, by norm_num⟩
  · simp [validate_temperature]
  · simp [payloadTemperature]
  · simp [payloadTemperature]

/-- Counterexample to C1: when the key-exchange endpoint answers with the body
`\x7b"token": null, "expires_at": 9999999999\x7d` (a body the HTTP layer may
return), `get_api_key` succeeds with `None` and `execute` raises an uncaught
`TypeError` at the `api_key[:4]` debug print, before yielding any fragment —
it does not always produce a sequence of fragments. -/
theorem C1_counterexample :
    executeWithAuth .absent 0 nullTokenGrantWorld (.body "hello") [] .done =
      .error "TypeError: object is not subscriptable" ∧
    (get_api_key .absent 0 nullTokenGrantWorld).outcome = .ok (some .null) :=
  ⟨rfl, rfl⟩

/-- C1 (amended): provided credential acquisition yields an actual string
token, `execute` never raises: it returns a (finite) fragment list for every
behaviour of the HTTP layer; when credential acquisition fails the sequence is
exactly one descriptive error fragment, and when both HTTP calls fail with
transport errors the sequence is exactly one descriptive error fragment. Only
when `get_api_key` returns a non-string (e.g. `None` from a null `token`
field) does `execute` raise, at the debug print. -/
theorem C1_error_boundary (w : World) :
    (∀ s, w.apiKey = .ok (some (.str s)) → ∃ out, execute w = .ok out) ∧
    (∀ e, w.apiKey = .error e →
      execute w = .ok ⟨[.text ("Error getting GitHub Copilot API key: " ++ e)], false, false⟩) ∧
    (∀ s m mex, w.apiKey = .ok (some (.str s)) → w.diag = .postError m →
      w.streamLines = [] → w.streamExit = .exn mex →
      execute w = .ok ⟨[.text (genericError mex)], true, true⟩) := by
  obtain ⟨ak, diag, lines, ex⟩ := w
  refine ⟨?_, ?_, ?_⟩
  · intro s h
    cases h
    cases diag with
    | body s' =>
      by_cases hs : s' = ""
      · exact ⟨⟨processLines lines ex, true, true⟩, by simp [execute, executeAfterKey, hs]⟩
      · exact ⟨⟨[.text s'], true, false⟩, by simp [execute, executeAfterKey, hs]⟩
    | postError m => exact ⟨⟨processLines lines ex, true, true⟩, rfl⟩
    | textError m => exact ⟨⟨processLines lines ex, true, true⟩, rfl⟩
  · intro e h
    cases h
    rfl
  · intro s m mex h1 h2 h3 h4
    cases h1
    cases h2
    cases h3
    cases h4
    rfl

/-- Witness for C1 (amended): every HTTP call fails with a transport error;
`execute` yields exactly one error fragment and terminates. -/
theorem C1_error_boundary_witness :
    execute ⟨.ok (some (.str "key")), .postError "down", [], .exn "down"⟩ =
      .ok ⟨[.text (genericError "down")], true, true⟩ :=
  (C1_error_boundary ⟨.ok (some (.str "key")), .postError "down", [], .exn "down"⟩).2.2
    "key" "down" "down" rfl rfl rfl rfl

/-- Counterexample to C4: when the diagnostic POST itself raises (a transport
failure), `execute` proceeds to the streaming call — so the streaming call is
attempted in a run where the diagnostic call did not return an empty body. -/
theorem C4_counterexample :
    execute ⟨.ok (some (.str "k")), .postError "boom", [], .done⟩ = .ok ⟨[], true, true⟩ ∧
    DiagResult.returnedBody (.postError "boom") = none :=
  ⟨rfl, rfl⟩

/-- C4 (amended): the diagnostic call is issued first; in every run in which
its body is non-empty, exactly one fragment (the entire body) is yielded and
the sequence terminates without the streaming call; the streaming call is
attempted only in runs where the diagnostic call returned an empty body or
failed (its POST raised, or its body could not be read). -/
theorem C4_diagnostic_short_circuit (w : World) :
    (∀ k s, w.apiKey = .ok (some (.str k)) → w.diag = .body s → s ≠ "" →
      execute w = .ok ⟨[.text s], true, false⟩) ∧
    (∀ out, execute w = .ok out → out.streamCalled = true →
      w.diag = .body "" ∨ (∃ m, w.diag = .postError m) ∨ (∃ m, w.diag = .textError m)) := by
  obtain ⟨ak, diag, lines, ex⟩ := w
  constructor
  · intro k s h1 h2 h3
    cases h1
    cases h2
    simp [execute, executeAfterKey, h3]
  · intro out h1 h2
    cases ak with
    | error e =>
      simp only [execute] at h1
      cases h1
      simp at h2
    | ok v =>
      cases v with
      | none => simp [execute] at h1
      | some j =>
        cases j with
        | null => simp [execute] at h1
        | bool b => simp [execute] at h1
        | num n => simp [execute] at h1
        | obj fs => simp [execute] at h1
        | str s =>
          cases diag with
          | body s' =>
            by_cases hs : s' = ""
            · exact Or.inl (by rw [hs])
            · simp only [execute, executeAfterKey, hs, if_neg hs] at h1
              cases h1
              simp at h2
          | postError m => exact Or.inr (Or.inl ⟨m, rfl⟩)
          | textError m => exact Or.inr (Or.inr ⟨m, rfl⟩)
        | arr es =>
          cases diag with
          | body s' =>
            by_cases hs : s' = ""
            · exact Or.inl (by rw [hs])
            · simp only [execute, executeAfterKey, hs, if_neg hs] at h1
              cases h1
              simp at h2
          | postError m => exact Or.inr (Or.inl ⟨m, rfl⟩)
          | textError m => exact Or.inr (Or.inr ⟨m, rfl⟩)

/-- Witness for C4 (amended): a non-empty diagnostic body short-circuits
streaming: one fragment, no streaming call. -/
theorem C4_diagnostic_short_circuit_witness :
    execute ⟨.ok (some (.str "k")), .body "full response", ["ignored"], .done⟩ =
      .ok ⟨[.text "full response"], true, false⟩ :=
  (C4_diagnostic_short_circuit ⟨.ok (some (.str "k")), .body "full response",
      ["ignored"], .done⟩).1 "k" "full response" rfl rfl (by decide)

/-- Counterexample to C5: for the payload whose delta `content` field is
present with value `""`, the parse succeeds and the extraction finds the field
(`.ok (some "")`), yet the streaming loop yields nothing — `if content:`
rejects the falsy empty string — contradicting "yields the first choice's
delta content field when that field is present". -/
theorem C5_counterexample :
    Json.parse emptyContentPayload =
      some (.obj [("choices", .arr [.obj [("delta", .obj [("content", .str "")])]])]) ∧
    extractContent (.obj [("choices", .arr [.obj [("delta", .obj [("content", .str "")])]])]) =
      .ok (some (.str "")) ∧
    processLines [dataLine emptyContentPayload] .done = [] :=
  ⟨rfl, rfl, rfl⟩

/-- C5 (amended): per-line semantics of the streaming loop. A `data: [DONE]`
line ends the sequence; an empty line is skipped; a non-empty line without the
`data: ` prefix is yielded as raw text; a `data: ` payload that fails to parse
is yielded verbatim without ending the sequence; a payload that parses and
whose extraction finds no content continues silently; a payload whose
extracted content is truthy (in particular a non-empty string) is yielded; a
payload whose extracted content is falsy (e.g. the empty string) is NOT
yielded; and a payload on which the extraction raises (e.g. a non-object
payload such as `5`) aborts the sequence with one error fragment. -/
theorem C5_stream_line_semantics (d l : String) (rest : List String) (ex : StreamExit) :
    (processLines (dataLine "[DONE]" :: rest) ex = []) ∧
    (processLines ("" :: rest) ex = processLines rest ex) ∧
    (l ≠ "" → isPrefixOfCL dataPrefixChars l.data = false →
      processLines (l :: rest) ex = .text l :: processLines rest ex) ∧
    (d ≠ "[DONE]" → Json.parse d = none →
      processLines (dataLine d :: rest) ex = .text d :: processLines rest ex) ∧
    (∀ j, d ≠ "[DONE]" → Json.parse d = some j → extractContent j = .ok none →
      processLines (dataLine d :: rest) ex = processLines rest ex) ∧
    (∀ j c, d ≠ "[DONE]" → Json.parse d = some j → extractContent j = .ok (some c) →
      c.truthy = true →
      processLines (dataLine d :: rest) ex = .val c :: processLines rest ex) ∧
    (∀ j c, d ≠ "[DONE]" → Json.parse d = some j → extractContent j = .ok (some c) →
      c.truthy = false →
      processLines (dataLine d :: rest) ex = processLines rest ex) ∧
    (∀ j m, d ≠ "[DONE]" → Json.parse d = some j → extractContent j = .error m →
      processLines (dataLine d :: rest) ex = [.text (genericError m)]) := by
  have hdl : ∀ d₀ : String, d₀ ≠ "[DONE]" → lineView (dataLine d₀) = LineView.payload d₀ := by
    intro d₀ hne
    rw [lineView_dataLine, if_neg hne]
  refine ⟨rfl, rfl, ?_, ?_, ?_, ?_, ?_, ?_⟩
  · intro h1 h2
    obtain ⟨cs⟩ := l
    cases cs with
    | nil => exact absurd rfl h1
    | cons c t =>
      rw [show (String.mk (c :: t)).data = c :: t from rfl] at h2
      simp only [processLines, lineView, string_data_mk, h2, Bool.false_eq_true, if_false]
  · intro hne hp
    simp only [processLines, hdl d hne, hp]
  · intro j hne hp hx
    simp only [processLines, hdl d hne, hp, hx]
  · intro j c hne hp hx ht
    simp only [processLines, hdl d hne, hp, hx, ht, if_true]
  · intro j c hne hp hx ht
    simp only [processLines, hdl d hne, hp, hx, ht, Bool.false_eq_true, if_false]
  · intro j m hne hp hx
    simp only [processLines, hdl d hne, hp, hx]

/-- Witness for C5 (amended): the P4 lines produce `Hi`, ` there` and then
terminate at `[DONE]`; the P5 line `data: not-json` yields the raw payload
without terminating. -/
theorem C5_stream_line_semantics_witness :
    processLines [dataLine hiPayload, dataLine therePayload, dataLine "[DONE]"] .done =
      [.val (.str "Hi"), .val (.str " there")] ∧
    processLines [dataLine "not-json", dataLine "[DONE]"] .done = [.text "not-json"] := by
  have h1 := (C5_stream_line_semantics hiPayload "x"
      [dataLine therePayload, dataLine "[DONE]"] .done).2.2.2.2.2.1
    (.obj [("choices", .arr [.obj [("delta", .obj [("content", .str "Hi")])]])]) (.str "Hi")
    (by decide) rfl rfl rfl
  have h2 := (C5_stream_line_semantics "not-json" "x" [dataLine "[DONE]"] .done).2.2.2.1
    (by decide) rfl
  constructor
  · rw [h1]
    rfl
  · rw [h2]
    rfl
